import Mathlib

/-
Verification of the travel-assistant intent classifier (main.py).

The core of the repository is the pure function guess_intent together with
the entity extractors extract_date and extract_cities and the regular
expression tables CITY_PATTERN, BOOKING_ID_PATTERN, DATE_WORDS and
DATE_PATTERN.  Below, those regular expressions are embedded as explicit
backtracking matchers over lists of characters, following the semantics of
the re module: leftmost match wins, alternatives are tried in written
order, quantifiers are greedy and backtrack, and a word boundary holds at
a transition between a word character and a non-word character (or the
ends of the string).  Confidences are modelled as rational numbers.
-/

namespace TravelBot

/-- Word character for word boundaries: ASCII letters, digits and the
underscore (the ASCII core of the re module class backslash-w). -/
def isWordChar (c : Char) : Bool := c.isAlphanum || c == '_'

/-- Whitespace as recognised by str.strip and the re class backslash-s
(ASCII part): space, tab, newline, carriage return, vertical tab, form feed. -/
def isSpaceChar (c : Char) : Bool :=
  c == ' ' || c == '\t' || c == '\n' || c == '\r' || c == '\x0b' || c == '\x0c'

/-- Characters admitted by the booking identifier class: uppercase ASCII
letters and digits. -/
def isUpperDigit (c : Char) : Bool := c.isUpper || c.isDigit

/-- str.strip: remove leading and trailing whitespace. -/
def pyStrip (l : List Char) : List Char :=
  ((l.dropWhile isSpaceChar).reverse.dropWhile isSpaceChar).reverse

/-- Helper for str.title: uppercase a letter that follows a non-letter,
lowercase a letter that follows a letter. -/
def titleChars : Bool → List Char → List Char
  | _, [] => []
  | prevAlpha, c :: cs =>
    (if c.isAlpha then (if prevAlpha then c.toLower else c.toUpper) else c)
      :: titleChars c.isAlpha cs

/-- str.title, used by the reply composer. -/
def pyTitle (s : String) : String := String.mk (titleChars false s.data)

/-- Case-insensitive literal match of a (lowercase) pattern against the head
of the text; on success returns the remaining text. -/
def matchLitCI : List Char → List Char → Option (List Char)
  | [], l => some l
  | _ :: _, [] => none
  | p :: ps, c :: cs => if c.toLower == p then matchLitCI ps cs else none

/-- Word boundary after a match whose last consumed character is a word
character: the rest must start with a non-word character or be empty. -/
def boundaryAfter : List Char → Bool
  | [] => true
  | c :: _ => !(isWordChar c)

/-- The text consumed by a match, recovered from the input and the rest. -/
def takeMatch (l rest : List Char) : List Char := l.take (l.length - rest.length)

/-- One whole alternative of a word-bounded alternation: the literal followed
by the trailing word boundary of the pattern. -/
def litWB (pat : String) (l : List Char) : Bool :=
  match matchLitCI pat.data l with
  | some rest => boundaryAfter rest
  | none => false

/-- Alternation of word-bounded literals at one position, tried in written
order; an alternative that matches but fails the trailing boundary falls
through to the next alternative, as in the re module. -/
def tryAlts : List String → List Char → Option (List Char)
  | [], _ => none
  | a :: as, l =>
    match matchLitCI a.data l with
    | some rest => if boundaryAfter rest then some rest else tryAlts as l
    | none => tryAlts as l

/-- Rests after consuming between lo and hi characters of the class p,
longest first: the backtracking order of a greedy counted repetition. -/
def classRests (p : Char → Bool) : Nat → Nat → List Char → List (List Char)
  | _, 0, l => [l]
  | lo, _ + 1, [] => if lo == 0 then [[]] else []
  | lo, hi + 1, c :: cs =>
    if p c then
      classRests p (lo - 1) hi cs ++ (if lo == 0 then [c :: cs] else [])
    else if lo == 0 then [c :: cs] else []

/-- Exactly n digits. -/
def digitsExact : Nat → List Char → Option (List Char)
  | 0, l => some l
  | _ + 1, [] => none
  | n + 1, c :: cs => if c.isDigit then digitsExact n cs else none

/-- Keep a rest only if the trailing word boundary holds there. -/
def bAfterSome (r : List Char) : Option (List Char) :=
  if boundaryAfter r then some r else none

/-- Substring containment, the semantics of the Python expression
pat in text. -/
def containsSub (pat : List Char) : List Char → Bool
  | [] => pat.isEmpty
  | c :: cs => pat.isPrefixOf (c :: cs) || containsSub pat cs

/-- re.search as a Boolean: is there a position with the leading word
boundary where the position test succeeds?  prevWord records whether the
character before the current position is a word character. -/
def searchB (atP : List Char → Bool) : Bool → List Char → Bool
  | _, [] => false
  | prevWord, c :: cs =>
    ((prevWord != isWordChar c) && atP (c :: cs))
      || searchB atP (isWordChar c) cs

/-- re.search returning the text of the first (leftmost) match. -/
def searchFirst (atP : List Char → Option (List Char)) :
    Bool → List Char → Option (List Char)
  | _, [] => none
  | prevWord, c :: cs =>
    if prevWord != isWordChar c then
      match atP (c :: cs) with
      | some rest => some (takeMatch (c :: cs) rest)
      | none => searchFirst atP (isWordChar c) cs
    else searchFirst atP (isWordChar c) cs

/-- re.finditer: all non-overlapping leftmost matches, scanning resumes at
the end of each match.  Fuel bounds the recursion; every match of the
patterns used here consumes at least one character, so fuel equal to the
length of the text is enough. -/
def scanIterF (atP : List Char → Option (List Char)) :
    Nat → Bool → List Char → List (List Char)
  | 0, _, _ => []
  | _ + 1, _, [] => []
  | fuel + 1, prevWord, c :: cs =>
    if prevWord != isWordChar c then
      match atP (c :: cs) with
      | some rest =>
        let m := takeMatch (c :: cs) rest
        m :: scanIterF atP fuel ((m.getLast?.map isWordChar).getD prevWord) rest
      | none => scanIterF atP fuel (isWordChar c) cs
    else scanIterF atP fuel (isWordChar c) cs

/-- The alternation of CITY_PATTERN, in its written order. -/
def cityAlts : List String :=
  ["paris", "tokyo", "rome", "london", "new york", "nyc", "madrid", "berlin",
   "sydney", "dubai"]

/-- CITY_PATTERN at one position (leading word boundary handled by the
scanners). -/
def cityAt (l : List Char) : Option (List Char) := tryAlts cityAlts l

/-- The month alternation of DATE_PATTERN. -/
def monthAlts : List String :=
  ["jan", "feb", "mar", "apr", "may", "jun", "jul", "aug", "sep", "oct",
   "nov", "dec"]

/-- First DATE_PATTERN alternative: four digits, dash, one or two digits,
dash, one or two digits, then the trailing word boundary. -/
def matchAltA (l : List Char) : Option (List Char) :=
  match digitsExact 4 l with
  | some ('-' :: r2) =>
    (classRests Char.isDigit 1 2 r2).findSome? (fun r3 =>
      match r3 with
      | '-' :: r4 => (classRests Char.isDigit 1 2 r4).findSome? bAfterSome
      | _ => none)
  | _ => none

/-- Second DATE_PATTERN alternative: one or two digits, slash, one or two
digits, optionally slash and two to four digits (the optional group is
greedy, so it is tried first), then the trailing word boundary. -/
def matchAltB (l : List Char) : Option (List Char) :=
  (classRests Char.isDigit 1 2 l).findSome? (fun r1 =>
    match r1 with
    | '/' :: r2 =>
      (classRests Char.isDigit 1 2 r2).findSome? (fun r3 =>
        (match r3 with
         | '/' :: r4 => (classRests Char.isDigit 2 4 r4).findSome? bAfterSome
         | _ => none) <|> bAfterSome r3)
    | _ => none)

/-- Third DATE_PATTERN alternative: a month abbreviation, any further ASCII
letters, at least one whitespace character, one or two digits, then the
trailing word boundary.  The letter run and the whitespace run are maximal:
shortening either would put a letter where whitespace is required or
whitespace where a digit is required, so backtracking them cannot help. -/
def matchAltC (l : List Char) : Option (List Char) :=
  monthAlts.findSome? (fun mo =>
    match matchLitCI mo.data l with
    | some r1 =>
      match r1.dropWhile Char.isAlpha with
      | c :: cs =>
        if isSpaceChar c then
          (classRests Char.isDigit 1 2 (cs.dropWhile isSpaceChar)).findSome?
            bAfterSome
        else none
      | [] => none
    | none => none)

/-- DATE_PATTERN at one position: the three alternatives in written order. -/
def dateAt (l : List Char) : Option (List Char) :=
  matchAltA l <|> matchAltB l <|> matchAltC l

/-- BOOKING_ID_PATTERN at one position: five to eight uppercase letters or
digits (greedy, longest first), then the trailing word boundary. -/
def bookingIdAt (l : List Char) : Option (List Char) :=
  (classRests isUpperDigit 5 8 l).findSome? bAfterSome

/-- The DATE_WORDS vocabulary, in its written order. -/
def DATE_WORDS : List String :=
  ["today", "tomorrow", "tonight", "next monday", "next tuesday",
   "next wednesday", "next thursday", "next friday", "next saturday",
   "next sunday"]

/-- extract_date: first a DATE_PATTERN search, otherwise the first word of
DATE_WORDS (in list order) contained in the lowercased text. -/
def extract_date (text : List Char) : Option String :=
  match searchFirst dateAt false text with
  | some m => some (String.mk m)
  | none => DATE_WORDS.find? (fun w => containsSub w.data (text.map Char.toLower))

/-- extract_cities: all CITY_PATTERN matches of the text, lowercased, in
first-occurrence order. -/
def extract_cities (text : List Char) : List String :=
  (scanIterF cityAt text.length false text).map (fun m => String.mk (m.map Char.toLower))

/-- list(DATE_PATTERN.finditer(text)), as the matched texts: the
all-structural-dates pass of the hotel branch. -/
def allDates (text : List Char) : List String :=
  (scanIterF dateAt text.length false text).map String.mk

/-- BOOKING_ID_PATTERN.search(text), as the matched text. -/
def bookingIdSearch (text : List Char) : Option String :=
  (searchFirst bookingIdAt false text).map String.mk

/-- Greeting alternation at one position: hi, hello, hey, or good followed
by whitespace and morning, afternoon or evening; each alternative carries
the trailing word boundary of the pattern. -/
def greetingAt (l : List Char) : Bool :=
  litWB "hi" l || litWB "hello" l || litWB "hey" l ||
  (match matchLitCI "good".data l with
   | some r1 =>
     match r1 with
     | c :: cs =>
       if isSpaceChar c then
         let r2 := cs.dropWhile isSpaceChar
         litWB "morning" r2 || litWB "afternoon" r2 || litWB "evening" r2
       else false
     | [] => false
   | none => false)

/-- The greeting predicate of guess_intent. -/
def hasGreeting (low : List Char) : Bool := searchB greetingAt false low

/-- A word-bounded alternation search, for the keyword predicates of
guess_intent. -/
def wordAlts (alts : List String) (low : List Char) : Bool :=
  searchB (fun l => alts.any (fun a => litWB a l)) false low

/-- Thanks predicate. -/
def hasThanks (low : List Char) : Bool :=
  wordAlts ["thanks", "thank you", "cheers", "appreciate it"] low

/-- Help predicate. -/
def hasHelp (low : List Char) : Bool :=
  wordAlts ["help", "what can you do", "options"] low

/-- Cancel keyword test of the cancel-booking predicate. -/
def hasCancel (low : List Char) : Bool := wordAlts ["cancel", "void"] low

/-- Booking keyword test of the cancel-booking predicate. -/
def hasBookingWord (low : List Char) : Bool :=
  wordAlts ["booking", "reservation"] low

/-- Lodging keyword test of the book-hotel predicate. -/
def hasHotel (low : List Char) : Bool :=
  wordAlts ["hotel", "stay", "accommodation"] low

/-- Action keyword test of the book-hotel predicate. -/
def hasAction (low : List Char) : Bool :=
  wordAlts ["book", "reserve", "find"] low

/-- Flight keyword test of the search-flights predicate. -/
def hasFlight (low : List Char) : Bool :=
  wordAlts ["flight", "flights", "plane"] low

/-- Direction word test of the search-flights predicate. -/
def hasFromTo (low : List Char) : Bool := wordAlts ["from", "to"] low

/-- Weather predicate. -/
def hasWeather (low : List Char) : Bool := wordAlts ["weather", "forecast"] low

/-- The ChatResponse record of main.py; the slot mapping is an association
list in insertion order, so absent keys and null values are distinguished. -/
structure ChatResponse where
  intent : String
  confidence : ℚ
  slots : List (String × Option String)
  reply : String
  follow_up : Option String
deriving DecidableEq

/-- Response of the greeting branch. -/
def greetingResponse : ChatResponse :=
  ⟨"greeting", 0.95, [],
    "Hi! Where would you like to travel? I can search flights and hotels, or check the weather.",
    none⟩

/-- Response of the thanks branch. -/
def thanksResponse : ChatResponse :=
  ⟨"thanks", 0.95, [], "You\x27re welcome! Anything else I can help with?", none⟩

/-- Response of the help branch. -/
def helpResponse : ChatResponse :=
  ⟨"help", 0.9, [],
    "I can: 1) find flights, 2) book hotels, 3) check weather, 4) cancel bookings if you have an ID.",
    none⟩

/-- Response of the cancel-booking branch: identifier search, slot mapping
with the booking identifier key only when it matched, and the two replies. -/
def cancelResponse (text : List Char) : ChatResponse :=
  let bid := bookingIdSearch text
  let reply :=
    match bid with
    | none => "I can help cancel that. What\x27s the booking ID?"
    | some b => "Okay, I can cancel booking " ++ b ++ ". Do you want me to proceed?"
  ⟨"cancel_booking", 0.85,
    (match bid with | some b => [("booking_id", some b)] | none => []),
    reply, none⟩

/-- Response of the book-hotel branch.  In the source date1 is first set to
extract_date(text) and then overridden by the first two structural matches
when there are at least two of them; with fewer than two structural
matches date1 keeps the extract_date value, as written here. -/
def hotelResponse (text : List Char) : ChatResponse :=
  let cities := extract_cities text
  let dates := allDates text
  let d12 : Option String × Option String :=
    match dates with
    | d1 :: d2 :: _ => (some d1, some d2)
    | _ => (extract_date text, none)
  let reply :=
    match cities.head?, d12.1, d12.2 with
    | some c, some a, some b =>
      "Got it. Searching hotels in " ++ pyTitle c ++ " from " ++ a ++ " to " ++ b ++ "..."
    | some c, some a, none =>
      "Great. What\x27s your check-out date for " ++ pyTitle c ++ " after " ++ a ++ "?"
    | some c, none, _ => "Great. What dates would you like in " ++ pyTitle c ++ "?"
    | none, _, _ => "Sure, what city and dates are you looking at?"
  ⟨"book_hotel", 0.8,
    [("location", cities.head?), ("check_in", d12.1), ("check_out", d12.2)],
    reply, some "Please provide missing details if any."⟩

/-- Response of the search-flights branch.  The initial assignment
reply = Looking for flights of the source is dead: both branches of the
reply computation overwrite it. -/
def flightResponse (text low : List Char) : ChatResponse :=
  let cities := extract_cities text
  let date := extract_date text
  let ft : Option String × Option String :=
    match cities with
    | c1 :: c2 :: _ => (some c1, some c2)
    | [c1] =>
      if containsSub "from".data low then (some c1, none)
      else if containsSub "to".data low then (none, some c1)
      else (none, none)
    | [] => (none, none)
  let parts : List String :=
    (match ft.1 with | some f => ["from " ++ pyTitle f] | none => []) ++
    (match ft.2 with | some t => ["to " ++ pyTitle t] | none => []) ++
    (match date with | some d => ["on " ++ d] | none => [])
  let reply :=
    if parts.isEmpty then "Sure — what\x27s your origin, destination, and date?"
    else String.intercalate " " ("Got it." :: parts) ++ "..."
  ⟨"search_flights", 0.82, [("from", ft.1), ("to", ft.2), ("date", date)],
    reply, none⟩

/-- Response of the weather branch. -/
def weatherResponse (text : List Char) : ChatResponse :=
  let cities := extract_cities text
  let date := extract_date text
  let reply :=
    match cities.head?, date with
    | some c, some d =>
      "Forecast for " ++ pyTitle c ++ " on " ++ d ++ ": 23°C, partly cloudy (sample)."
    | _, _ => "I can get the forecast. Which city and date?"
  ⟨"weather", 0.78, [("location", cities.head?), ("date", date)], reply, none⟩

/-- Response of the fallback branch. -/
def fallbackResponse : ChatResponse :=
  ⟨"fallback", 0.4, [],
    "I\x27m not sure I understood. Try asking me to find flights, book a hotel, check weather, or cancel a booking.",
    none⟩

/-- The body of guess_intent after the initial strip: the ordered
first-match-wins cascade over the lowercased text. -/
def classifyText (text : List Char) : ChatResponse :=
  let low := text.map Char.toLower
  if hasGreeting low then greetingResponse
  else if hasThanks low then thanksResponse
  else if hasHelp low then helpResponse
  else if hasCancel low && hasBookingWord low then cancelResponse text
  else if hasHotel low && hasAction low then hotelResponse text
  else if hasFlight low && hasFromTo low then flightResponse text low
  else if hasWeather low then weatherResponse text
  else fallbackResponse

/-- guess_intent: strip the message, then classify. -/
def guess_intent (message : String) : ChatResponse :=
  classifyText (pyStrip message.data)

/-- The lowercased stripped view of a message used by the matchers. -/
def lowOf (s : String) : List Char := (pyStrip s.data).map Char.toLower

/-- The eight intent names. -/
def intentNames : List String :=
  ["greeting", "thanks", "help", "cancel_booking", "book_hotel",
   "search_flights", "weather", "fallback"]

/-- The seven non-fallback rules in priority order, each with its predicate
evaluated on the lowercased text. -/
def intentPreds (low : List Char) : List (String × Bool) :=
  [("greeting", hasGreeting low), ("thanks", hasThanks low),
   ("help", hasHelp low), ("cancel_booking", hasCancel low && hasBookingWord low),
   ("book_hotel", hasHotel low && hasAction low),
   ("search_flights", hasFlight low && hasFromTo low),
   ("weather", hasWeather low)]

/-- The earliest satisfied rule in priority order, fallback if none. -/
def firstIntent (low : List Char) : String :=
  (((intentPreds low).find? (fun p => p.2)).map (fun p => p.1)).getD "fallback"

/-- The book-hotel slot mapping as the specification words it: location is
the first extracted city (or null); with at least two structural date
matches the first two become check-in and check-out, otherwise check-in is
the single-date extraction and check-out is null. -/
def hotelSlotsSpec (text : List Char) : List (String × Option String) :=
  match allDates text with
  | d1 :: d2 :: _ =>
    [("location", (extract_cities text).head?), ("check_in", some d1),
     ("check_out", some d2)]
  | _ =>
    [("location", (extract_cities text).head?), ("check_in", extract_date text),
     ("check_out", none)]

/-- The search-flights slot mapping as the specification words it: two
cities fill origin and destination in order; a single city goes to origin
when the text contains the string from (checked first), else to destination
when it contains to; the date slot is the single-date extraction. -/
def flightSlotsSpec (text : List Char) : List (String × Option String) :=
  match extract_cities text with
  | c1 :: c2 :: _ => [("from", some c1), ("to", some c2), ("date", extract_date text)]
  | [c1] =>
    if containsSub "from".data (text.map Char.toLower) then
      [("from", some c1), ("to", none), ("date", extract_date text)]
    else if containsSub "to".data (text.map Char.toLower) then
      [("from", none), ("to", some c1), ("date", extract_date text)]
    else [("from", none), ("to", none), ("date", extract_date text)]
  | [] => [("from", none), ("to", none), ("date", extract_date text)]

/-- The fixed confidence of each intent. -/
def confOf : String → ℚ
  | "greeting" => 0.95
  | "thanks" => 0.95
  | "help" => 0.9
  | "cancel_booking" => 0.85
  | "book_hotel" => 0.8
  | "search_flights" => 0.82
  | "weather" => 0.78
  | _ => 0.4

/-- Dropping whitespace past an all-whitespace prefix. -/
lemma dropWhile_append_sp {w l : List Char} (h : ∀ c ∈ w, isSpaceChar c = true) :
    (w ++ l).dropWhile isSpaceChar = l.dropWhile isSpaceChar := by
  induction w with
  | nil => simp
  | cons a as ih =>
    have ha : isSpaceChar a = true := h a (by simp)
    simp only [List.cons_append, List.dropWhile_cons, ha, if_true]
    exact ih (fun c hc => h c (by simp [hc]))

/-- Stripping ignores an all-whitespace prefix. -/
lemma pyStrip_append_left {w l : List Char} (h : ∀ c ∈ w, isSpaceChar c = true) :
    pyStrip (w ++ l) = pyStrip l := by
  simp [pyStrip, dropWhile_append_sp h]

/-- Stripping ignores an all-whitespace suffix. -/
lemma pyStrip_append_right {l w : List Char} (h : ∀ c ∈ w, isSpaceChar c = true) :
    pyStrip (l ++ w) = pyStrip l := by
  induction l with
  | nil =>
    have hw : (w ++ ([] : List Char)).dropWhile isSpaceChar = [] := by
      simpa using dropWhile_append_sp (l := []) h
    simp only [List.nil_append, pyStrip]
    simp only [List.append_nil] at hw
    simp [hw]
  | cons c cs ih =>
    by_cases hc : isSpaceChar c = true
    · simp only [pyStrip, List.cons_append, List.dropWhile_cons, hc, if_true] at ih ⊢
      exact ih
    · have hw : ∀ x ∈ w.reverse, isSpaceChar x = true :=
        fun x hx => h x (List.mem_reverse.mp hx)
      simp only [pyStrip, List.cons_append, List.dropWhile_cons, if_neg hc]
      rw [List.reverse_cons, List.reverse_cons, List.reverse_append,
        List.append_assoc, dropWhile_append_sp hw]

@[simp] lemma greetingResponse_intent : greetingResponse.intent = "greeting" := rfl

@[simp] lemma thanksResponse_intent : thanksResponse.intent = "thanks" := rfl

@[simp] lemma helpResponse_intent : helpResponse.intent = "help" := rfl

@[simp] lemma cancelResponse_intent (text : List Char) :
    (cancelResponse text).intent = "cancel_booking" := rfl

@[simp] lemma hotelResponse_intent (text : List Char) :
    (hotelResponse text).intent = "book_hotel" := rfl

@[simp] lemma flightResponse_intent (text low : List Char) :
    (flightResponse text low).intent = "search_flights" := rfl

@[simp] lemma weatherResponse_intent (text : List Char) :
    (weatherResponse text).intent = "weather" := rfl

@[simp] lemma fallbackResponse_intent : fallbackResponse.intent = "fallback" := rfl

@[simp] lemma greetingResponse_slots : greetingResponse.slots = [] := rfl

@[simp] lemma thanksResponse_slots : thanksResponse.slots = [] := rfl

@[simp] lemma helpResponse_slots : helpResponse.slots = [] := rfl

@[simp] lemma fallbackResponse_slots : fallbackResponse.slots = [] := rfl

@[simp] lemma greetingResponse_follow_up : greetingResponse.follow_up = none := rfl

@[simp] lemma thanksResponse_follow_up : thanksResponse.follow_up = none := rfl

@[simp] lemma helpResponse_follow_up : helpResponse.follow_up = none := rfl

@[simp] lemma cancelResponse_follow_up (text : List Char) :
    (cancelResponse text).follow_up = none := rfl

@[simp] lemma hotelResponse_follow_up (text : List Char) :
    (hotelResponse text).follow_up = some "Please provide missing details if any." := rfl

@[simp] lemma flightResponse_follow_up (text low : List Char) :
    (flightResponse text low).follow_up = none := rfl

@[simp] lemma weatherResponse_follow_up (text : List Char) :
    (weatherResponse text).follow_up = none := rfl

@[simp] lemma fallbackResponse_follow_up : fallbackResponse.follow_up = none := rfl

@[simp] lemma greetingResponse_conf : greetingResponse.confidence = 0.95 := rfl

@[simp] lemma thanksResponse_conf : thanksResponse.confidence = 0.95 := rfl

@[simp] lemma helpResponse_conf : helpResponse.confidence = 0.9 := rfl

@[simp] lemma cancelResponse_conf (text : List Char) :
    (cancelResponse text).confidence = 0.85 := rfl

@[simp] lemma hotelResponse_conf (text : List Char) :
    (hotelResponse text).confidence = 0.8 := rfl

@[simp] lemma flightResponse_conf (text low : List Char) :
    (flightResponse text low).confidence = 0.82 := rfl

@[simp] lemma weatherResponse_conf (text : List Char) :
    (weatherResponse text).confidence = 0.78 := rfl

@[simp] lemma fallbackResponse_conf : fallbackResponse.confidence = 0.4 := rfl

/-- The cancel-booking branch slot mapping: a single booking identifier key
when the identifier search matches, otherwise no key at all. -/
lemma cancelResponse_slots (text : List Char) :
    (cancelResponse text).slots =
      match bookingIdSearch text with
      | some b => [("booking_id", some b)]
      | none => [] := by
  cases hb : bookingIdSearch text <;> simp [cancelResponse, hb]

/-- The book-hotel branch slot mapping follows the two-date heuristic. -/
lemma hotelResponse_slots (text : List Char) :
    (hotelResponse text).slots = hotelSlotsSpec text := by
  rcases hd : allDates text with _ | ⟨d1, _ | ⟨d2, tl⟩⟩ <;>
    simp [hotelResponse, hotelSlotsSpec, hd]

/-- The search-flights branch slot mapping follows the direction
heuristic. -/
lemma flightResponse_slots (text : List Char) :
    (flightResponse text (text.map Char.toLower)).slots = flightSlotsSpec text := by
  rcases hc : extract_cities text with _ | ⟨c1, _ | ⟨c2, tl⟩⟩
  · simp [flightResponse, flightSlotsSpec, hc]
  · simp only [flightResponse, flightSlotsSpec, hc]
    split_ifs <;> simp
  · simp [flightResponse, flightSlotsSpec, hc]

/-- The reported intent is that of the first satisfied rule in priority
order. -/
lemma classifyText_first (text : List Char) :
    (classifyText text).intent = firstIntent (text.map Char.toLower) := by
  simp only [classifyText, firstIntent, intentPreds, List.find?]
  cases hasGreeting (text.map Char.toLower) <;>
    cases hasThanks (text.map Char.toLower) <;>
      cases hasHelp (text.map Char.toLower) <;>
        cases hasCancel (text.map Char.toLower) <;>
          cases hasBookingWord (text.map Char.toLower) <;>
            cases hasHotel (text.map Char.toLower) <;>
              cases hasAction (text.map Char.toLower) <;>
                cases hasFlight (text.map Char.toLower) <;>
                  cases hasFromTo (text.map Char.toLower) <;>
                    cases hasWeather (text.map Char.toLower) <;> rfl

/-- The intent always belongs to the closed enumeration. -/
lemma classifyText_total (text : List Char) :
    (classifyText text).intent ∈ intentNames := by
  simp only [classifyText]
  split_ifs <;> simp [intentNames]

/-- Conversational intents carry no slots. -/
lemma classifyText_noslots (text : List Char)
    (h : (classifyText text).intent ∈ (["greeting", "thanks", "help", "fallback"] : List String)) :
    (classifyText text).slots = [] := by
  simp only [classifyText] at h ⊢
  split_ifs at h ⊢ <;> simp_all

/-- Lifting the cancel-booking slot shape to the cascade. -/
lemma classifyText_cancel (text : List Char)
    (h : (classifyText text).intent = "cancel_booking") :
    (classifyText text).slots =
      match bookingIdSearch text with
      | some b => [("booking_id", some b)]
      | none => [] := by
  simp only [classifyText] at h ⊢
  split_ifs at h ⊢ <;> simp_all [cancelResponse_slots]

/-- Lifting the book-hotel slot shape to the cascade. -/
lemma classifyText_hotel (text : List Char)
    (h : (classifyText text).intent = "book_hotel") :
    (classifyText text).slots = hotelSlotsSpec text := by
  simp only [classifyText] at h ⊢
  split_ifs at h ⊢ <;> simp_all [hotelResponse_slots]

/-- Lifting the search-flights slot shape to the cascade. -/
lemma classifyText_flight (text : List Char)
    (h : (classifyText text).intent = "search_flights") :
    (classifyText text).slots = flightSlotsSpec text := by
  simp only [classifyText] at h ⊢
  split_ifs at h ⊢ <;> simp_all [flightResponse_slots]

/-- The follow-up field is set exactly by the book-hotel branch. -/
lemma classifyText_follow_up (text : List Char) :
    (classifyText text).follow_up =
      if (classifyText text).intent = "book_hotel"
      then some "Please provide missing details if any." else none := by
  simp only [classifyText]
  split_ifs <;> simp_all

/-- The confidence is the fixed constant of the reported intent and lies
in the half-open unit interval. -/
lemma classifyText_conf (text : List Char) :
    (classifyText text).confidence = confOf (classifyText text).intent ∧
      0 < (classifyText text).confidence ∧ (classifyText text).confidence ≤ 1 := by
  simp only [classifyText]
  split_ifs <;> exact ⟨by simp [confOf], by norm_num, by norm_num⟩

/-- String append acts as list append on the underlying characters. -/
lemma string_data_append (a b : String) : (a ++ b).data = a.data ++ b.data := rfl

/-- C1, amended: for every utterance the reported intent is that of the
earliest satisfied rule in the fixed priority order greeting, thanks, help,
cancel_booking, book_hotel, search_flights, weather, fallback (first match
wins).  The utterance cancel my hotel booking ABC123 satisfies the
cancel-booking predicate but, contrary to the original claim, not the
book-hotel predicate (none of book, reserve, find occurs as a whole word);
it is classified cancel_booking with the single slot booking_id = ABC123. -/
theorem C1_priority :
    (∀ s : String, (guess_intent s).intent = firstIntent (lowOf s)) ∧
    hasCancel (lowOf "cancel my hotel booking ABC123") = true ∧
    hasBookingWord (lowOf "cancel my hotel booking ABC123") = true ∧
    (hasHotel (lowOf "cancel my hotel booking ABC123") &&
      hasAction (lowOf "cancel my hotel booking ABC123")) = false ∧
    guess_intent "cancel my hotel booking ABC123" =
      ⟨"cancel_booking", 0.85, [("booking_id", some "ABC123")],
        "Okay, I can cancel booking ABC123. Do you want me to proceed?", none⟩ :=
  ⟨fun s => classifyText_first (pyStrip s.data), by decide, by decide, by decide,
    by rfl⟩

/-- C1, counterexample to the claim as stated: the utterance
cancel my hotel booking ABC123 does not satisfy the book-hotel predicate,
because none of the action keywords book, reserve, find occurs in it as a
whole word (booking fails the trailing word boundary). -/
theorem C1_counterexample :
    (hasHotel (lowOf "cancel my hotel booking ABC123") &&
      hasAction (lowOf "cancel my hotel booking ABC123")) = false := by decide

/-- C2: guess_intent is total and always reports exactly one of the eight
intents; the empty string is classified fallback with confidence 0.4. -/
theorem C2_totality :
    (∀ s : String, (guess_intent s).intent ∈ intentNames) ∧
    guess_intent "" =
      ⟨"fallback", 0.4, [],
        "I\x27m not sure I understood. Try asking me to find flights, book a hotel, check weather, or cancel a booking.",
        none⟩ :=
  ⟨fun s => classifyText_total (pyStrip s.data), by rfl⟩

/-- C3: utterances classified greeting, thanks, help or fallback always get
an empty slot mapping; in particular a greeting that mentions the city
Paris still has no slots. -/
theorem C3_no_slots :
    (∀ s : String,
        (guess_intent s).intent ∈ (["greeting", "thanks", "help", "fallback"] : List String) →
        (guess_intent s).slots = []) ∧
    guess_intent "hi, I\x27m in Paris" =
      ⟨"greeting", 0.95, [],
        "Hi! Where would you like to travel? I can search flights and hotels, or check the weather.",
        none⟩ :=
  ⟨fun s h => classifyText_noslots (pyStrip s.data) h, by rfl⟩

theorem C3_witness : (guess_intent "What are my options?").slots = [] :=
  C3_no_slots.1 "What are my options?" (by decide)

/-- C4: every utterance classified book_hotel gets exactly the keys
location, check_in, check_out; location is the first extracted city (or
null), and with at least two structural date matches the first two become
check-in and check-out in text order, otherwise check-in is the single-date
extraction and check-out null.  The two-date hotel example fills all
three slots. -/
theorem C4_hotel_slots :
    (∀ s : String, (guess_intent s).intent = "book_hotel" →
        (guess_intent s).slots = hotelSlotsSpec (pyStrip s.data)) ∧
    guess_intent "Book a hotel in Paris from 2024-07-01 to 2024-07-05" =
      ⟨"book_hotel", 0.8,
        [("location", some "paris"), ("check_in", some "2024-07-01"),
         ("check_out", some "2024-07-05")],
        "Got it. Searching hotels in Paris from 2024-07-01 to 2024-07-05...",
        some "Please provide missing details if any."⟩ :=
  ⟨fun s h => classifyText_hotel (pyStrip s.data) h, by rfl⟩

theorem C4_witness :
    (guess_intent "Book a hotel in Paris from 2024-07-01 to 2024-07-05").slots =
      hotelSlotsSpec (pyStrip ("Book a hotel in Paris from 2024-07-01 to 2024-07-05").data) :=
  C4_hotel_slots.1 _ (by decide)

/-- C5: every utterance classified search_flights resolves its slots by the
direction heuristic: two cities fill origin and destination in order; a
single city goes to the origin slot when the lowercased text contains the
string from (checked first), else to the destination slot when it contains
to; with no city both are null; the date slot is the single-date
extraction.  Both flight examples of the claim evaluate as stated. -/
theorem C5_flight_slots :
    (∀ s : String, (guess_intent s).intent = "search_flights" →
        (guess_intent s).slots = flightSlotsSpec (pyStrip s.data)) ∧
    guess_intent "I need a flight from London to Rome" =
      ⟨"search_flights", 0.82,
        [("from", some "london"), ("to", some "rome"), ("date", none)],
        "Got it. from London to Rome...", none⟩ ∧
    guess_intent "Any flights to Tokyo next Friday?" =
      ⟨"search_flights", 0.82,
        [("from", none), ("to", some "tokyo"), ("date", some "next friday")],
        "Got it. to Tokyo on next friday...", none⟩ :=
  ⟨fun s h => classifyText_flight (pyStrip s.data) h, by rfl, by rfl⟩

theorem C5_witness :
    (guess_intent "I need a flight from London to Rome").slots =
      flightSlotsSpec (pyStrip ("I need a flight from London to Rome").data) :=
  C5_flight_slots.1 _ (by decide)

/-- C6: every utterance classified cancel_booking maps its slots from the
identifier search: a single booking_id key when it matches, and a mapping
with zero keys (not a null value) when it does not; the id-less cancel
example returns the empty mapping. -/
theorem C6_cancel_slots :
    (∀ s : String, (guess_intent s).intent = "cancel_booking" →
        (guess_intent s).slots =
          match bookingIdSearch (pyStrip s.data) with
          | some b => [("booking_id", some b)]
          | none => []) ∧
    bookingIdSearch (pyStrip ("I want to cancel my reservation").data) = none ∧
    guess_intent "I want to cancel my reservation" =
      ⟨"cancel_booking", 0.85, [],
        "I can help cancel that. What\x27s the booking ID?", none⟩ :=
  ⟨fun s h => classifyText_cancel (pyStrip s.data) h, by decide, by rfl⟩

theorem C6_witness :
    (guess_intent "Cancel booking ABC123").slots =
      match bookingIdSearch (pyStrip ("Cancel booking ABC123").data) with
      | some b => [("booking_id", some b)]
      | none => [] :=
  C6_cancel_slots.1 _ (by decide)

/-- C7: the follow-up field is non-null exactly for book_hotel, where it is
always the fixed string, and null for every other intent. -/
theorem C7_follow_up :
    ∀ s : String,
      (guess_intent s).follow_up =
        if (guess_intent s).intent = "book_hotel"
        then some "Please provide missing details if any." else none :=
  fun s => classifyText_follow_up (pyStrip s.data)

/-- C8: the confidence is the fixed constant of the reported intent
(greeting 0.95, thanks 0.95, help 0.9, cancel_booking 0.85, book_hotel 0.8,
search_flights 0.82, weather 0.78, fallback 0.4), hence always strictly
positive and at most one, and never computed from the input. -/
theorem C8_confidence :
    ∀ s : String,
      (guess_intent s).confidence = confOf (guess_intent s).intent ∧
        0 < (guess_intent s).confidence ∧ (guess_intent s).confidence ≤ 1 :=
  fun s => classifyText_conf (pyStrip s.data)

/-- C9: when the structural date pattern finds no match, extract_date
returns the earliest entry of DATE_WORDS in list order that occurs as a
substring of the lowercased text; a text containing both tomorrow and
today yields today although tomorrow occurs earlier in the text. -/
theorem C9_date_words :
    (∀ text : List Char, searchFirst dateAt false text = none →
        extract_date text =
          DATE_WORDS.find? (fun w => containsSub w.data (text.map Char.toLower))) ∧
    containsSub "tomorrow".data ("tomorrow or today").data = true ∧
    extract_date ("tomorrow or today").data = some "today" := by
  refine ⟨fun text h => ?_, by decide, by decide⟩
  simp [extract_date, h]

theorem C9_witness :
    extract_date ("fly tonight or tomorrow").data =
      DATE_WORDS.find?
        (fun w => containsSub w.data (("fly tonight or tomorrow").data.map Char.toLower)) :=
  C9_date_words.1 _ (by decide)

/-- C10: guess_intent is invariant under adding leading and trailing
whitespace, because the message is stripped before any matching or
extraction. -/
theorem C10_strip_invariance (w1 s w2 : String)
    (h1 : ∀ c ∈ w1.data, isSpaceChar c = true)
    (h2 : ∀ c ∈ w2.data, isSpaceChar c = true) :
    guess_intent (w1 ++ s ++ w2) = guess_intent s := by
  unfold guess_intent
  rw [string_data_append, string_data_append, List.append_assoc,
    pyStrip_append_left h1, pyStrip_append_right h2]

theorem C10_witness :
    guess_intent ("  " ++ "hello" ++ " \n") = guess_intent "hello" :=
  C10_strip_invariance "  " "hello" " \n" (by decide) (by decide)

end TravelBot
